import Mathlib

/-!
Shallow embedding of `prsw/stat/routing_status.py` (the RoutingStatus data
call of the prsw RIPEstat client) together with the parts of its environment
the module uses:

* a JSON value type standing for the deserialized response payloads,
* a `PyError` type standing for the Python exceptions the code can raise
  (`ValueError`, `KeyError`, `TypeError`, `UnboundLocalError`),
* models of the Python stdlib functions the module calls
  (`int(...)`, `ipaddress.ip_network(...)`, `datetime.fromisoformat(...)`),
* models of `prsw.validators.Validators._validate_asn` /
  `_validate_ip_network`; that file is not part of the sources at hand, so
  those two are modelled from the specification's words (marked below).

The class attribute `RoutingStatus.resource_type` is modelled as an explicit
state value threaded through construction, and the HTTP collaborator
`RIPEstat._get` as a function argument; construction additionally records the
list of calls made to the collaborator so that call-contract properties are
statable.
-/

/-- A JSON value, as produced by deserializing a RIPEstat response.  Numeric
leaves are modelled as integers: every numeric field of the routing-status
payloads is integral. -/
inductive Json where
  | null : Json
  | bool : Bool → Json
  | num : Int → Json
  | str : String → Json
  | arr : List Json → Json
  | obj : List (String × Json) → Json

/-- The Python exceptions the embedded code can raise. -/
inductive PyError where
  | valueError : String → PyError
  | keyError : String → PyError
  | typeError : String → PyError
  | unboundLocalError : String → PyError
deriving DecidableEq

/-- Model of Python `d[k]` on a deserialized JSON value with a string key:
a `KeyError` when the key is absent from a dict, a `TypeError` when the value
is not a dict at all. -/
def Json.getItem : Json → String → Except PyError Json
  | .obj kvs, k =>
    match kvs.find? (fun kv => kv.1 = k) with
    | some kv => .ok kv.2
    | none => .error (.keyError k)
  | _, k => .error (.typeError ("value is not subscriptable by string key " ++ k))

/-- Whether a Python `for` loop can iterate over this value (lists, dicts and
strings are iterable; numbers, booleans and None are not). -/
def Json.isIterable : Json → Bool
  | .arr _ => true
  | .obj _ => true
  | .str _ => true
  | _ => false

/-- Whether the value is a JSON number (a Python `int` here). -/
def Json.isNum : Json → Bool
  | .num _ => true
  | _ => false

/-- Whether the value is a JSON string. -/
def Json.isStr : Json → Bool
  | .str _ => true
  | _ => false

/-- Python whitespace characters stripped by `int(str)`. -/
def isPyWs (c : Char) : Bool :=
  c = ' ' || c = '\t' || c = '\n' || c = '\r' || c = '\x0b' || c = '\x0c'

/-- Strip leading and trailing whitespace from a character list. -/
def stripWs (cs : List Char) : List Char :=
  ((cs.dropWhile isPyWs).reverse.dropWhile isPyWs).reverse

/-- Decimal digit value accumulation for the body of an integer literal,
allowing single underscores between digits as Python's `int` does. -/
def parseDigitsAux : Nat → List Char → Option Nat
  | acc, [] => some acc
  | acc, c :: rest =>
    if c.isDigit then parseDigitsAux (acc * 10 + (c.toNat - 48)) rest
    else if c = '_' then
      match rest with
      | d :: rest2 =>
        if d.isDigit then parseDigitsAux (acc * 10 + (d.toNat - 48)) rest2 else none
      | [] => none
    else none

/-- Parse a nonempty run of decimal digits (single underscores permitted
between digits, as in Python integer literals). -/
def parseDigits : List Char → Option Nat
  | [] => none
  | c :: rest => if c.isDigit then parseDigitsAux (c.toNat - 48) rest else none

/-- Model of Python `int(s)` on a string: optional surrounding whitespace,
optional sign, then a decimal literal. Returns `none` where Python raises
`ValueError`. -/
def pyParseInt (s : String) : Option Int :=
  match stripWs s.toList with
  | '-' :: rest => (parseDigits rest).map (fun n => -(n : Int))
  | '+' :: rest => (parseDigits rest).map (fun n => (n : Int))
  | rest => (parseDigits rest).map (fun n => (n : Int))

/-- Model of Python `int(x)` on a deserialized JSON value: numbers pass
through, strings are parsed, booleans coerce to 0/1, anything else is a
`TypeError`. -/
def pyInt : Json → Except PyError Int
  | .num n => .ok n
  | .str s =>
    match pyParseInt s with
    | some n => .ok n
    | none => .error (.valueError ("invalid literal for int with base 10: " ++ s))
  | .bool b => .ok (if b then 1 else 0)
  | _ => .error (.typeError "int argument must be a string or a number")

/-- Split a character list on a separator character; like Python `str.split(sep)`,
adjacent separators produce empty components. -/
def splitOnChar (c : Char) : List Char → List (List Char)
  | [] => [[]]
  | x :: xs =>
    let r := splitOnChar c xs
    if x = c then [] :: r
    else
      match r with
      | g :: gs => (x :: g) :: gs
      | [] => [[x]]

/-- Numeric value of a list of decimal digit characters. -/
def decValue (cs : List Char) : Nat :=
  cs.foldl (fun a c => a * 10 + (c.toNat - 48)) 0

/-- Parse one dotted-quad octet as `ipaddress` does: one to three decimal
digits, no leading zero, value at most 255. -/
def parseOctet (cs : List Char) : Option Nat :=
  match cs with
  | [] => none
  | c :: rest =>
    if (c :: rest).all Char.isDigit && (c :: rest).length ≤ 3
        && (c ≠ '0' || rest.isEmpty) then
      let v := decValue (c :: rest)
      if v ≤ 255 then some v else none
    else none

/-- Parse an IPv4 address `a.b.c.d` to its 32-bit numeric value. -/
def parseIPv4Addr (cs : List Char) : Option Nat :=
  match splitOnChar '.' cs with
  | [a, b, c, d] =>
    match parseOctet a, parseOctet b, parseOctet c, parseOctet d with
    | some va, some vb, some vc, some vd =>
      some (va * 16777216 + vb * 65536 + vc * 256 + vd)
    | _, _, _, _ => none
  | _ => none

/-- Value of a hexadecimal digit character. -/
def hexVal (c : Char) : Option Nat :=
  if c.isDigit then some (c.toNat - 48)
  else if 'a' ≤ c && c ≤ 'f' then some (c.toNat - 87)
  else if 'A' ≤ c && c ≤ 'F' then some (c.toNat - 55)
  else none

/-- Parse one IPv6 hextet: one to four hexadecimal digits. -/
def parseHexGroup (cs : List Char) : Option Nat :=
  match cs with
  | [] => none
  | _ =>
    if cs.length ≤ 4 then
      cs.foldl (fun acc c =>
        match acc, hexVal c with
        | some a, some v => some (a * 16 + v)
        | _, _ => none) (some 0)
    else none

/-- Split at the first occurrence of a double colon, if any. -/
def splitDC : List Char → Option (List Char × List Char)
  | [] => none
  | ':' :: ':' :: rest => some ([], rest)
  | c :: rest => (splitDC rest).map (fun p => (c :: p.1, p.2))

/-- Parse an IPv6 address in colon-hexadecimal form (with at most one `::`
abbreviation) to its 128-bit numeric value.  The dotted-quad embedded-IPv4
tail form is not modelled; no payload or resource in this repository uses it. -/
def parseIPv6Addr (cs : List Char) : Option Nat :=
  match splitDC cs with
  | some (l, r) =>
    if (splitDC r).isSome then none
    else
      let lg := if l.isEmpty then some [] else (splitOnChar ':' l).mapM parseHexGroup
      let rg := if r.isEmpty then some [] else (splitOnChar ':' r).mapM parseHexGroup
      match lg, rg with
      | some lgs, some rgs =>
        if lgs.length + rgs.length ≤ 7 then
          let groups := lgs ++ List.replicate (8 - lgs.length - rgs.length) 0 ++ rgs
          some (groups.foldl (fun a g => a * 65536 + g) 0)
        else none
      | _, _ => none
  | none =>
    match (splitOnChar ':' cs).mapM parseHexGroup with
    | some gs =>
      if gs.length = 8 then some (gs.foldl (fun a g => a * 65536 + g) 0) else none
    | none => none

/-- An IP network value as produced by `ipaddress.ip_network`: address bits,
a version flag and a prefix length. -/
structure IPNetwork where
  v6 : Bool
  addr : Nat
  plen : Nat
deriving DecidableEq

/-- Parse a prefix length: decimal digits only (no sign), at most `maxLen`. -/
def parsePlen (cs : List Char) (maxLen : Nat) : Option Nat :=
  if !cs.isEmpty && cs.all Char.isDigit then
    let v := decValue cs
    if v ≤ maxLen then some v else none
  else none

/-- Model of `ipaddress.ip_network(s, strict)` on a string: a bare address
gets the full prefix length (/32 for IPv4, /128 for IPv6); with an explicit
length, strict mode rejects set host bits while non-strict mode masks them
off. Returns `none` where Python raises `ValueError`. -/
def parseIpNetworkCore (strict : Bool) (s : String) : Option IPNetwork :=
  match splitOnChar '/' s.toList with
  | [a] =>
    match parseIPv4Addr a with
    | some n => some ⟨false, n, 32⟩
    | none => (parseIPv6Addr a).map (fun n => ⟨true, n, 128⟩)
  | [a, p] =>
    match parseIPv4Addr a with
    | some n =>
      match parsePlen p 32 with
      | some len =>
        if strict then
          if n % 2 ^ (32 - len) = 0 then some ⟨false, n, len⟩ else none
        else some ⟨false, n - n % 2 ^ (32 - len), len⟩
      | none => none
    | none =>
      match parseIPv6Addr a with
      | some n =>
        match parsePlen p 128 with
        | some len =>
          if strict then
            if n % 2 ^ (128 - len) = 0 then some ⟨true, n, len⟩ else none
          else some ⟨true, n - n % 2 ^ (128 - len), len⟩
        | none => none
      | none => none
  | _ => none

/-- `ipaddress.ip_network(s)` with the default `strict=True`. -/
def parseIpNetwork (s : String) : Option IPNetwork :=
  parseIpNetworkCore true s

/-- `ipaddress.ip_network(s, strict=False)`. -/
def parseIpNetworkNonStrict (s : String) : Option IPNetwork :=
  parseIpNetworkCore false s

/-- A naive `datetime.datetime` value (no timezone; none of the payloads
consumed here carry an offset). -/
structure DateTime where
  year : Nat
  month : Nat
  day : Nat
  hour : Nat
  minute : Nat
  second : Nat
  microsecond : Nat
deriving DecidableEq

/-- Gregorian leap-year test, as `datetime` uses. -/
def isLeapYear (y : Nat) : Bool :=
  y % 4 = 0 && (y % 100 ≠ 0 || y % 400 = 0)

/-- Days in a month of a given year. -/
def daysInMonth (y m : Nat) : Nat :=
  if m = 2 then (if isLeapYear y then 29 else 28)
  else if m = 4 || m = 6 || m = 9 || m = 11 then 30
  else 31

/-- Two decimal digit characters as a number. -/
def twoDigits (a b : Char) : Option Nat :=
  if a.isDigit && b.isDigit then some ((a.toNat - 48) * 10 + (b.toNat - 48)) else none

/-- Parse the time-of-day tail of an ISO string (`HH[:MM[:SS[.fff[fff]]]]`),
completing the given date. -/
def parseIsoTimePart (y mo da : Nat) : List Char → Option DateTime
  | h1 :: h2 :: rest =>
    match twoDigits h1 h2 with
    | some h =>
      if h ≤ 23 then
        match rest with
        | [] => some ⟨y, mo, da, h, 0, 0, 0⟩
        | ':' :: mi1 :: mi2 :: rest2 =>
          match twoDigits mi1 mi2 with
          | some mi =>
            if mi ≤ 59 then
              match rest2 with
              | [] => some ⟨y, mo, da, h, mi, 0, 0⟩
              | ':' :: s1 :: s2 :: rest3 =>
                match twoDigits s1 s2 with
                | some se =>
                  if se ≤ 59 then
                    match rest3 with
                    | [] => some ⟨y, mo, da, h, mi, se, 0⟩
                    | '.' :: fs =>
                      if fs.all Char.isDigit && fs.length = 3 then
                        some ⟨y, mo, da, h, mi, se, decValue fs * 1000⟩
                      else if fs.all Char.isDigit && fs.length = 6 then
                        some ⟨y, mo, da, h, mi, se, decValue fs⟩
                      else none
                    | _ => none
                  else none
                | none => none
              | _ => none
            else none
          | none => none
        | _ => none
      else none
    | none => none
  | _ => none

/-- Model of `datetime.fromisoformat`: `YYYY-MM-DD`, optionally followed by a
single separator character and `HH[:MM[:SS[.fff[fff]]]]`.  Timezone suffixes
are not modelled; no payload in this repository carries one. -/
def parseIso (s : String) : Option DateTime :=
  match s.toList with
  | y1 :: y2 :: y3 :: y4 :: '-' :: m1 :: m2 :: '-' :: d1 :: d2 :: rest =>
    if [y1, y2, y3, y4].all Char.isDigit then
      let y := decValue [y1, y2, y3, y4]
      match twoDigits m1 m2, twoDigits d1 d2 with
      | some mo, some da =>
        if 1 ≤ mo && mo ≤ 12 && 1 ≤ da && da ≤ daysInMonth y mo then
          match rest with
          | [] => some ⟨y, mo, da, 0, 0, 0, 0⟩
          | _ :: t => parseIsoTimePart y mo da t
        else none
      | _, _ => none
    else none
  | _ => none

/-- Modelled from the spec: `prsw.validators.Validators._validate_asn` is not
among the sources at hand; per the specification an ASN is "validated as a
non-negative integer-like string", so the model accepts exactly the strings
Python's `int` parses to a non-negative value. -/
def Validators.validate_asn (value : String) : Bool :=
  match pyParseInt value with
  | some n => decide (0 ≤ n)
  | none => false

/-- Modelled from the spec: `prsw.validators.Validators._validate_ip_network`
is not among the sources at hand; per the specification a resource is a valid
IP network when standard IP-network parsing accepts it (a bare address
defaulting to /32 or /128), so the model accepts exactly the strings
`ipaddress.ip_network` (strict) parses. -/
def Validators.validate_ip_network (value : String) : Bool :=
  (parseIpNetwork value).isSome

/-- Lowercase hexadecimal form of one IPv6 hextet, no leading zeros. -/
def hexStr (g : Nat) : String :=
  String.mk (Nat.toDigits 16 g)

/-- The eight 16-bit groups of a 128-bit IPv6 address value. -/
def v6groups (n : Nat) : List Nat :=
  (List.range 8).map (fun i => n / 2 ^ (16 * (7 - i)) % 65536)

/-- The leftmost longest run (of length at least two) of zero hextets, as
`ipaddress` compresses with `::`. -/
def bestZeroRun (gs : List Nat) : Option (Nat × Nat) :=
  let cands := (List.range gs.length).map
    (fun i => (i, ((gs.drop i).takeWhile (fun g => g = 0)).length))
  let maxLen := cands.foldl (fun m c => max m c.2) 0
  if 2 ≤ maxLen then cands.find? (fun c => c.2 = maxLen) else none

/-- Model of `str(...)` on an `ipaddress` network object: dotted quad for
IPv4, compressed colon-hexadecimal for IPv6, then `/` and the prefix
length. -/
def ipNetworkToString (net : IPNetwork) : String :=
  if net.v6 then
    let gs := v6groups net.addr
    let core :=
      match bestZeroRun gs with
      | some il =>
        String.intercalate ":" ((gs.take il.1).map hexStr) ++ "::"
          ++ String.intercalate ":" ((gs.drop (il.1 + il.2)).map hexStr)
      | none => String.intercalate ":" (gs.map hexStr)
    core ++ "/" ++ toString net.plen
  else
    let o := fun (k : Nat) => toString (net.addr / 2 ^ (8 * (3 - k)) % 256)
    o 0 ++ "." ++ o 1 ++ "." ++ o 2 ++ "." ++ o 3 ++ "/" ++ toString net.plen

/-- The response object returned by the HTTP collaborator `RIPEstat._get`;
the accessors only ever read its `data` attribute. -/
structure Output where
  data : Json

/-- An instance of the `RoutingStatus` class: its only per-instance state is
the stored API response `self._api`. -/
structure RoutingStatusInst where
  api : Output

/-- Model of `SomeNamedTuple(**j)` for a two-field record: `j` must be a dict
whose keys are exactly the two field names (a missing or an unexpected
keyword is a `TypeError`). -/
def kwargs2 (j : Json) (k1 k2 : String) : Except PyError (Json × Json) :=
  match j with
  | .obj kvs =>
    if kvs.all (fun kv => kv.1 = k1 || kv.1 = k2) then
      match kvs.find? (fun kv => kv.1 = k1), kvs.find? (fun kv => kv.1 = k2) with
      | some a, some b => .ok (a.2, b.2)
      | _, _ => .error (.typeError "missing a required argument")
    else .error (.typeError "unexpected keyword argument")
  | _ => .error (.typeError "argument after ** must be a mapping")

/-- Model of `SomeNamedTuple(**j)` for a three-field record. -/
def kwargs3 (j : Json) (k1 k2 k3 : String) :
    Except PyError (Json × Json × Json) :=
  match j with
  | .obj kvs =>
    if kvs.all (fun kv => kv.1 = k1 || kv.1 = k2 || kv.1 = k3) then
      match kvs.find? (fun kv => kv.1 = k1), kvs.find? (fun kv => kv.1 = k2),
          kvs.find? (fun kv => kv.1 = k3) with
      | some a, some b, some c => .ok (a.2, b.2, c.2)
      | _, _, _ => .error (.typeError "missing a required argument")
    else .error (.typeError "unexpected keyword argument")
  | _ => .error (.typeError "argument after ** must be a mapping")

/-- The `V4totals` named tuple of `announced_space` (source fields `ips`,
`prefixes`; the second is named `pfxs` here). Values are stored as they
arrive, no coercion. -/
structure V4totals where
  ips : Json
  pfxs : Json

/-- The `V6totals` named tuple of `announced_space` (source fields
`amount_of_48s`, `prefixes`). -/
structure V6totals where
  amount_of_48s : Json
  pfxs : Json

/-- The `Versions` named tuple returned by `announced_space`. -/
structure Versions where
  v4 : V4totals
  v6 : V6totals

/-- The `First_seen` named tuple (source fields `time`, `origin`, `prefix`;
the last is named `pfx` here). Values are stored as they arrive, no
coercion. -/
structure First_seen where
  time : Json
  origin : Json
  pfx : Json

/-- The `Last_seen` named tuple (source fields `time`, `origin`, `prefix`). -/
structure Last_seen where
  time : Json
  origin : Json
  pfx : Json

/-- The `MoreSpecific` named tuple (source fields `prefix`, `origin`): here
the values have been coerced by the source, the network parsed and the origin
converted to an integer. -/
structure MoreSpecific where
  pfx : IPNetwork
  origin : Int
deriving DecidableEq

/-- The `RIStable` named tuple of `visibility`. -/
structure RIStable where
  ris_peers_seeing : Json
  total_ris_peers : Json

/-- The `Visibility` named tuple returned by `visibility`. -/
structure Visibility where
  v4 : RIStable
  v6 : RIStable

namespace RoutingStatus

/-- `RoutingStatus.PATH`. -/
def PATH : String := "/routing-status"

/-- `RoutingStatus.VERSION`. -/
def VERSION : String := "3.0"

/-- The value bound by `_resource`: an integer ASN or a parsed IP network. -/
inductive ResourceVal where
  | asn : Int → ResourceVal
  | net : IPNetwork → ResourceVal
deriving DecidableEq

/-- Python `str(...)` on the bound resource value. -/
def resourceStr : ResourceVal → String
  | .asn n => toString n
  | .net v => ipNetworkToString v

/-- `RoutingStatus._resource`: try the ASN validator, then the IP-network
validator, else raise `ValueError`.  Alongside the value it returns the new
contents of the class attribute `RoutingStatus.resource_type` ("asn" or
"prefix"); on the `ValueError` path the attribute is not assigned. -/
def _resource (value : String) : Except PyError (ResourceVal × String) :=
  if Validators.validate_asn value then
    match pyParseInt value with
    | some n => .ok (.asn n, "asn")
    | none => .error (.valueError ("invalid literal for int with base 10: " ++ value))
  else if Validators.validate_ip_network value then
    match parseIpNetwork value with
    | some v => .ok (.net v, "prefix")
    | none => .error (.valueError "unreachable: validated network failed to parse")
  else .error (.valueError "Resource must either be valid ASN int or valid IP prefix")

/-- The HTTP collaborator: `RIPEstat._get(path, params)`. -/
def Getter : Type :=
  String → List (String × String) → Except PyError Output

/-- What running `RoutingStatus.__init__` produces: the constructed instance
(or the exception), the contents of the class attribute
`RoutingStatus.resource_type` afterwards, and the list of calls made to the
HTTP collaborator. -/
structure InitResult where
  result : Except PyError RoutingStatusInst
  resource_type : String
  calls : List (String × List (String × String))

/-- `RoutingStatus.__init__`: validate and normalize the resource (updating
the class attribute), build the query parameters, and delegate one `_get`
call to the collaborator.  `resource_type` is the contents of the class
attribute before the call. -/
def init (resource_type : String) (RIPEstat : Getter) (resource : String) :
    InitResult :=
  match _resource resource with
  | .error e => ⟨.error e, resource_type, []⟩
  | .ok vr =>
    let params := [("preferred_version", VERSION), ("resource", resourceStr vr.1)]
    ⟨(RIPEstat PATH params).map (fun out => ⟨out⟩), vr.2, [(PATH, params)]⟩

/-- `RoutingStatus.announced_space`: gated on the class attribute being
`"asn"` (the gate falls through to `None` otherwise, modelled as `none`);
builds `V4totals(**data["announced_space"]["v4"])` and a `V6totals` from the
explicitly looked-up `"48s"` and `"prefixes"` entries of
`data["announced_space"]["v6"]`. -/
def announced_space (resource_type : String) (self : RoutingStatusInst) :
    Except PyError (Option Versions) :=
  if resource_type = "asn" then do
    let asp ← self.api.data.getItem "announced_space"
    let v4j ← asp.getItem "v4"
    let p4 ← kwargs2 v4j "ips" "prefixes"
    let v6j ← asp.getItem "v6"
    let t48 ← v6j.getItem "48s"
    let pfs ← v6j.getItem "prefixes"
    .ok (some ⟨⟨p4.1, p4.2⟩, ⟨t48, pfs⟩⟩)
  else .ok none

/-- `RoutingStatus.first_seen`: `First_seen(**data["first_seen"])`, raw
values, no coercion (the source carries a `# todo handle types` comment). -/
def first_seen (self : RoutingStatusInst) : Except PyError First_seen := do
  let fsj ← self.api.data.getItem "first_seen"
  let t ← kwargs3 fsj "time" "origin" "prefix"
  .ok ⟨t.1, t.2.1, t.2.2⟩

/-- `RoutingStatus.last_seen`: `Last_seen(**data["last_seen"])`, raw values,
no coercion. -/
def last_seen (self : RoutingStatusInst) : Except PyError Last_seen := do
  let lsj ← self.api.data.getItem "last_seen"
  let t ← kwargs3 lsj "time" "origin" "prefix"
  .ok ⟨t.1, t.2.1, t.2.2⟩

/-- `RoutingStatus.less_specifics`: gated on the class attribute being
`"prefix"` (falling through to `None` otherwise); inside the gate it iterates
over `data["less_specifics"]` printing each raw item and then returns the
literal string `"return"`. -/
def less_specifics (resource_type : String) (self : RoutingStatusInst) :
    Except PyError (Option String) :=
  if resource_type = "prefix" then do
    let ls ← self.api.data.getItem "less_specifics"
    if ls.isIterable then .ok (some "return")
    else .error (.typeError "object is not iterable")
  else .ok none

/-- `RoutingStatus.more_specifics`: the loop filling the local list sits
inside the `"prefix"` gate, but the `return more_specifics` statement sits
outside it, so when the gate is not taken the local variable is unbound and
Python raises `UnboundLocalError` (conditional assignment plus a use outside
the conditional).  Inside the gate each item's `"prefix"` entry is parsed
with `ip_network(..., strict=False)` and its `"origin"` entry converted with
`int(...)`. -/
def more_specifics (resource_type : String) (self : RoutingStatusInst) :
    Except PyError (List MoreSpecific) :=
  if resource_type = "prefix" then do
    let msj ← self.api.data.getItem "more_specifics"
    match msj with
    | .arr items =>
      items.mapM (fun item => do
        let pj ← item.getItem "prefix"
        let netv ←
          match pj with
          | .str s =>
            match parseIpNetworkNonStrict s with
            | some v => Except.ok v
            | none =>
              Except.error (.valueError
                (s ++ " does not appear to be an IPv4 or IPv6 network"))
          | .num n =>
            if n < 0 then
              Except.error (.valueError "negative address value")
            else if n.toNat < 2 ^ 32 then Except.ok (IPNetwork.mk false n.toNat 32)
            else if n.toNat < 2 ^ 128 then Except.ok (IPNetwork.mk true n.toNat 128)
            else Except.error (.valueError "address value out of range")
          | _ =>
            Except.error (.valueError "does not appear to be an IPv4 or IPv6 network")
        let oj ← item.getItem "origin"
        let o ← pyInt oj
        Except.ok (MoreSpecific.mk netv o))
    | _ => .error (.typeError "object is not a list of mappings")
  else .error (.unboundLocalError "more_specifics")

/-- `RoutingStatus.observed_neighbours`: `int(data["observed_neighbours"])`. -/
def observed_neighbours (self : RoutingStatusInst) : Except PyError Int := do
  let j ← self.api.data.getItem "observed_neighbours"
  pyInt j

/-- `RoutingStatus.query_time`:
`datetime.fromisoformat(data["query_time"])`. -/
def query_time (self : RoutingStatusInst) : Except PyError DateTime := do
  let qj ← self.api.data.getItem "query_time"
  match qj with
  | .str s =>
    match parseIso s with
    | some dt => .ok dt
    | none => .error (.valueError ("Invalid isoformat string: " ++ s))
  | _ => .error (.typeError "fromisoformat: argument must be str")

/-- `RoutingStatus.resource`: `int(data["resource"])`. -/
def resource (self : RoutingStatusInst) : Except PyError Int := do
  let j ← self.api.data.getItem "resource"
  pyInt j

/-- `RoutingStatus.visibility`: `RIStable(**data["visibility"]["v4"])` and
`RIStable(**data["visibility"]["v6"])`, raw values, no coercion. -/
def visibility (self : RoutingStatusInst) : Except PyError Visibility := do
  let vj ← self.api.data.getItem "visibility"
  let v4j ← vj.getItem "v4"
  let p4 ← kwargs2 v4j "ris_peers_seeing" "total_ris_peers"
  let v6j ← vj.getItem "v6"
  let p6 ← kwargs2 v6j "ris_peers_seeing" "total_ris_peers"
  .ok ⟨⟨p4.1, p4.2⟩, ⟨p6.1, p6.2⟩⟩

end RoutingStatus

/-- The `data` object of the canned routing-status response recorded in
`tests/unit/stat/test_routing_status.py` (`TestRoutingStatus.RESPONSE`). -/
def cannedData : Json :=
  Json.obj [
    ("first_seen", Json.obj [
      ("prefix", Json.str "130.38.0.0/16"),
      ("origin", Json.str "196"),
      ("time", Json.str "2000-08-18T08:00:00")]),
    ("last_seen", Json.obj [
      ("prefix", Json.str "2001:1840:c000::/44"),
      ("origin", Json.str "196"),
      ("time", Json.str "2021-05-15T08:00:00")]),
    ("visibility", Json.obj [
      ("v4", Json.obj [
        ("ris_peers_seeing", Json.num 328),
        ("total_ris_peers", Json.num 328)]),
      ("v6", Json.obj [
        ("ris_peers_seeing", Json.num 339),
        ("total_ris_peers", Json.num 339)])]),
    ("announced_space", Json.obj [
      ("v4", Json.obj [
        ("prefixes", Json.num 9),
        ("ips", Json.num 65536)]),
      ("v6", Json.obj [
        ("prefixes", Json.num 3),
        ("48s", Json.num 48)])]),
    ("observed_neighbours", Json.num 1),
    ("resource", Json.str "196"),
    ("query_time", Json.str "2021-05-15T08:00:00")]

/-- The canned response object. -/
def cannedOutput : Output := ⟨cannedData⟩

/-- A collaborator that answers every request with the canned response, as
the test suite's mocked `_get` does. -/
def cannedGetter : RoutingStatus.Getter := fun _ _ => Except.ok cannedOutput

/-- The instance produced by constructing `RoutingStatus` against the canned
collaborator. -/
def cannedInst : RoutingStatusInst := ⟨cannedOutput⟩

/-- Claim C1: for the fixed canned response payload, constructing a
`RoutingStatus` (with resource `"196"`) and reading back every documented
accessor yields exactly the corresponding nested field of the payload after
the coercions the code declares: `first_seen`, `last_seen`, `visibility` and
`announced_space` store the raw payload values, `observed_neighbours` and
`resource` are converted to integers, and `query_time` is parsed into a
datetime. -/
theorem C1_roundtrip_canned_payload :
    (RoutingStatus.init "" cannedGetter "196").resource_type = "asn"
    ∧ (RoutingStatus.init "" cannedGetter "196").result = Except.ok cannedInst
    ∧ RoutingStatus.first_seen cannedInst =
        Except.ok ⟨Json.str "2000-08-18T08:00:00", Json.str "196",
          Json.str "130.38.0.0/16"⟩
    ∧ RoutingStatus.last_seen cannedInst =
        Except.ok ⟨Json.str "2021-05-15T08:00:00", Json.str "196",
          Json.str "2001:1840:c000::/44"⟩
    ∧ RoutingStatus.visibility cannedInst =
        Except.ok ⟨⟨Json.num 328, Json.num 328⟩, ⟨Json.num 339, Json.num 339⟩⟩
    ∧ RoutingStatus.announced_space
        (RoutingStatus.init "" cannedGetter "196").resource_type cannedInst =
        Except.ok (some ⟨⟨Json.num 65536, Json.num 9⟩, ⟨Json.num 48, Json.num 3⟩⟩)
    ∧ RoutingStatus.observed_neighbours cannedInst = Except.ok 1
    ∧ RoutingStatus.resource cannedInst = Except.ok 196
    ∧ RoutingStatus.query_time cannedInst = Except.ok ⟨2021, 5, 15, 8, 0, 0, 0⟩ :=
  ⟨rfl, rfl, rfl, rfl, rfl, rfl, rfl, rfl, rfl⟩

/-- Binding a successful `Except` value just applies the continuation. -/
theorem ok_bind {α β ε : Type} (a : α) (f : α → Except ε β) :
    (Except.ok a >>= f) = f a := rfl

/-- Claim C2, counterexample: on the canned payload `first_seen.origin` is
present as the numeric string `"196"` and `first_seen.time` as an ISO
timestamp string, yet the accessor hands back the raw JSON strings: the
origin is not an integer and the time is not a parsed date-time value. -/
theorem C2_counterexample_first_seen_uncoerced :
    RoutingStatus.first_seen cannedInst =
      Except.ok ⟨Json.str "2000-08-18T08:00:00", Json.str "196",
        Json.str "130.38.0.0/16"⟩
    ∧ Json.isNum (Json.str "196") = false
    ∧ Json.isStr (Json.str "2000-08-18T08:00:00") = true :=
  ⟨rfl, rfl, rfl⟩

/-- Claim C2, amended: only `query_time` is parsed into a date-time, and only
`observed_neighbours` and `resource` (besides the origins inside
`more_specifics`) are coerced to integers; `first_seen` and `last_seen` hand
back the payload's raw values with no coercion at all. -/
theorem C2_amended_declared_coercions :
    (∀ (self : RoutingStatusInst) (s : String) (dt : DateTime),
      self.api.data.getItem "query_time" = Except.ok (Json.str s) →
      parseIso s = some dt →
      RoutingStatus.query_time self = Except.ok dt)
    ∧ (∀ (self : RoutingStatusInst) (j : Json) (n : Int),
      self.api.data.getItem "observed_neighbours" = Except.ok j →
      pyInt j = Except.ok n →
      RoutingStatus.observed_neighbours self = Except.ok n)
    ∧ (∀ (self : RoutingStatusInst) (j : Json) (n : Int),
      self.api.data.getItem "resource" = Except.ok j →
      pyInt j = Except.ok n →
      RoutingStatus.resource self = Except.ok n)
    ∧ (∀ (self : RoutingStatusInst) (t o p : Json),
      self.api.data.getItem "first_seen" =
        Except.ok (Json.obj [("prefix", p), ("origin", o), ("time", t)]) →
      RoutingStatus.first_seen self = Except.ok ⟨t, o, p⟩)
    ∧ (∀ (self : RoutingStatusInst) (t o p : Json),
      self.api.data.getItem "last_seen" =
        Except.ok (Json.obj [("prefix", p), ("origin", o), ("time", t)]) →
      RoutingStatus.last_seen self = Except.ok ⟨t, o, p⟩) := by
  refine ⟨?_, ?_, ?_, ?_, ?_⟩
  · intro self s dt h1 h2
    unfold RoutingStatus.query_time
    rw [h1, ok_bind]
    simp [h2]
  · intro self j n h1 h2
    unfold RoutingStatus.observed_neighbours
    rw [h1]
    exact h2
  · intro self j n h1 h2
    unfold RoutingStatus.resource
    rw [h1]
    exact h2
  · intro self t o p h
    unfold RoutingStatus.first_seen
    rw [h]
    rfl
  · intro self t o p h
    unfold RoutingStatus.last_seen
    rw [h]
    rfl

/-- Concrete instantiation of the amended C2 statement on the canned
payload. -/
theorem C2_amended_declared_coercions_witness :
    RoutingStatus.query_time cannedInst = Except.ok ⟨2021, 5, 15, 8, 0, 0, 0⟩
    ∧ RoutingStatus.observed_neighbours cannedInst = Except.ok 1
    ∧ RoutingStatus.resource cannedInst = Except.ok 196
    ∧ RoutingStatus.first_seen cannedInst =
        Except.ok ⟨Json.str "2000-08-18T08:00:00", Json.str "196",
          Json.str "130.38.0.0/16"⟩
    ∧ RoutingStatus.last_seen cannedInst =
        Except.ok ⟨Json.str "2021-05-15T08:00:00", Json.str "196",
          Json.str "2001:1840:c000::/44"⟩ :=
  ⟨C2_amended_declared_coercions.1 cannedInst "2021-05-15T08:00:00"
      ⟨2021, 5, 15, 8, 0, 0, 0⟩ rfl rfl,
    C2_amended_declared_coercions.2.1 cannedInst (Json.num 1) 1 rfl rfl,
    C2_amended_declared_coercions.2.2.1 cannedInst (Json.str "196") 196 rfl rfl,
    C2_amended_declared_coercions.2.2.2.1 cannedInst
      (Json.str "2000-08-18T08:00:00") (Json.str "196")
      (Json.str "130.38.0.0/16") rfl,
    C2_amended_declared_coercions.2.2.2.2 cannedInst
      (Json.str "2021-05-15T08:00:00") (Json.str "196")
      (Json.str "2001:1840:c000::/44") rfl⟩

/-- A string the ASN validator accepts parses to a non-negative integer, and
`_resource` classifies it as an ASN. -/
theorem resource_asn_of_validate (a : String)
    (ha : Validators.validate_asn a = true) :
    ∃ n : Int, RoutingStatus._resource a = Except.ok (.asn n, "asn") := by
  cases hpa : pyParseInt a with
  | none =>
    exfalso
    unfold Validators.validate_asn at ha
    rw [hpa] at ha
    exact Bool.noConfusion ha
  | some n =>
    refine ⟨n, ?_⟩
    unfold RoutingStatus._resource
    rw [ha]
    simp [hpa]

/-- A string the IP-network validator accepts (that the ASN validator
rejects) parses to a network, and `_resource` classifies it as a prefix. -/
theorem resource_net_of_validate (p : String)
    (hp1 : Validators.validate_asn p = false)
    (hp2 : Validators.validate_ip_network p = true) :
    ∃ v : IPNetwork, RoutingStatus._resource p = Except.ok (.net v, "prefix") := by
  cases hpn : parseIpNetwork p with
  | none =>
    exfalso
    unfold Validators.validate_ip_network at hp2
    rw [hpn] at hp2
    exact Bool.noConfusion hp2
  | some v =>
    refine ⟨v, ?_⟩
    unfold RoutingStatus._resource
    rw [hp1]
    simp [Validators.validate_ip_network, hpn]

/-- After a successful `_resource`, construction leaves the class attribute
at the detected type, whatever the collaborator answers. -/
theorem init_resource_type (st : String) (g : RoutingStatus.Getter)
    (s : String) (v : RoutingStatus.ResourceVal) (rt : String)
    (h : RoutingStatus._resource s = Except.ok (v, rt)) :
    (RoutingStatus.init st g s).resource_type = rt := by
  unfold RoutingStatus.init
  rw [h]

/-- Claim C3: the detected resource type lives on the class, not the
instance.  Constructing with an ASN and then with an IP network leaves the
shared attribute at `"prefix"`, and the type-gated accessors follow the
current attribute: under `"prefix"` the earlier (ASN) instance's
`announced_space` yields `None` and its `less_specifics`/`more_specifics`
take the prefix branch (here failing on the missing keys of its own
payload), while under its own `"asn"` type they would have yielded the
announced-space record, `None`, and `UnboundLocalError` respectively. -/
theorem C3_class_level_resource_type (st0 : String) (g : RoutingStatus.Getter)
    (a p : String)
    (ha : Validators.validate_asn a = true)
    (hp1 : Validators.validate_asn p = false)
    (hp2 : Validators.validate_ip_network p = true) :
    (RoutingStatus.init st0 g a).resource_type = "asn"
    ∧ (RoutingStatus.init (RoutingStatus.init st0 g a).resource_type g p).resource_type
        = "prefix"
    ∧ RoutingStatus.announced_space "prefix" cannedInst = Except.ok none
    ∧ RoutingStatus.announced_space "asn" cannedInst =
        Except.ok (some ⟨⟨Json.num 65536, Json.num 9⟩, ⟨Json.num 48, Json.num 3⟩⟩)
    ∧ RoutingStatus.less_specifics "prefix" cannedInst =
        Except.error (PyError.keyError "less_specifics")
    ∧ RoutingStatus.less_specifics "asn" cannedInst = Except.ok none
    ∧ RoutingStatus.more_specifics "prefix" cannedInst =
        Except.error (PyError.keyError "more_specifics")
    ∧ RoutingStatus.more_specifics "asn" cannedInst =
        Except.error (PyError.unboundLocalError "more_specifics") := by
  obtain ⟨n, hra⟩ := resource_asn_of_validate a ha
  obtain ⟨v, hrp⟩ := resource_net_of_validate p hp1 hp2
  exact ⟨init_resource_type st0 g a _ _ hra,
    init_resource_type _ g p _ _ hrp, rfl, rfl, rfl, rfl, rfl, rfl⟩

/-- Concrete instantiation of C3: ASN `"196"` constructed first, then the
prefix `"193.0.0.0/21"`. -/
theorem C3_class_level_resource_type_witness :
    (RoutingStatus.init "" cannedGetter "196").resource_type = "asn"
    ∧ (RoutingStatus.init (RoutingStatus.init "" cannedGetter "196").resource_type
        cannedGetter "193.0.0.0/21").resource_type = "prefix"
    ∧ RoutingStatus.announced_space "prefix" cannedInst = Except.ok none
    ∧ RoutingStatus.announced_space "asn" cannedInst =
        Except.ok (some ⟨⟨Json.num 65536, Json.num 9⟩, ⟨Json.num 48, Json.num 3⟩⟩)
    ∧ RoutingStatus.less_specifics "prefix" cannedInst =
        Except.error (PyError.keyError "less_specifics")
    ∧ RoutingStatus.less_specifics "asn" cannedInst = Except.ok none
    ∧ RoutingStatus.more_specifics "prefix" cannedInst =
        Except.error (PyError.keyError "more_specifics")
    ∧ RoutingStatus.more_specifics "asn" cannedInst =
        Except.error (PyError.unboundLocalError "more_specifics") :=
  C3_class_level_resource_type "" cannedGetter "196" "193.0.0.0/21"
    (by decide) (by decide) (by decide)

/-- Claim C4: a string rejected by both validators makes construction fail
synchronously with the `ValueError` (the only locally raised error), with no
collaborator call and the class attribute untouched; while a collaborator
failure propagates unchanged through construction, and a missing JSON key
surfaces as the corresponding `KeyError` from an accessor. -/
theorem C4_validation_error_and_propagation (st : String)
    (g g2 : RoutingStatus.Getter) (s s2 : String) (e : PyError)
    (v : RoutingStatus.ResourceVal) (rt : String)
    (h1 : Validators.validate_asn s = false)
    (h2 : Validators.validate_ip_network s = false)
    (hg2 : ∀ pa pr, g2 pa pr = Except.error e)
    (hs2 : RoutingStatus._resource s2 = Except.ok (v, rt)) :
    (RoutingStatus.init st g s).calls = []
    ∧ (RoutingStatus.init st g s).result =
        Except.error (PyError.valueError
          "Resource must either be valid ASN int or valid IP prefix")
    ∧ (RoutingStatus.init st g s).resource_type = st
    ∧ (RoutingStatus.init st g2 s2).result = Except.error e
    ∧ RoutingStatus.first_seen ⟨⟨Json.obj []⟩⟩ =
        Except.error (PyError.keyError "first_seen") := by
  have hr : RoutingStatus._resource s =
      Except.error (PyError.valueError
        "Resource must either be valid ASN int or valid IP prefix") := by
    unfold RoutingStatus._resource
    rw [h1, h2]
    simp
  refine ⟨?_, ?_, ?_, ?_, rfl⟩
  · unfold RoutingStatus.init
    rw [hr]
  · unfold RoutingStatus.init
    rw [hr]
  · unfold RoutingStatus.init
    rw [hr]
  · unfold RoutingStatus.init
    rw [hs2]
    simp only [hg2]
    rfl

/-- Concrete instantiation of C4: the invalid resource `"abcdef"` from the
test suite, and a collaborator that always fails with a `KeyError`. -/
theorem C4_validation_error_and_propagation_witness :
    (RoutingStatus.init "" cannedGetter "abcdef").calls = []
    ∧ (RoutingStatus.init "" cannedGetter "abcdef").result =
        Except.error (PyError.valueError
          "Resource must either be valid ASN int or valid IP prefix")
    ∧ (RoutingStatus.init "" cannedGetter "abcdef").resource_type = ""
    ∧ (RoutingStatus.init ""
        (fun _ _ => Except.error (PyError.keyError "connection down"))
        "196").result = Except.error (PyError.keyError "connection down")
    ∧ RoutingStatus.first_seen ⟨⟨Json.obj []⟩⟩ =
        Except.error (PyError.keyError "first_seen") :=
  C4_validation_error_and_propagation "" cannedGetter
    (fun _ _ => Except.error (PyError.keyError "connection down"))
    "abcdef" "196" (PyError.keyError "connection down")
    (.asn 196) "asn" (by decide) (by decide) (fun _ _ => rfl) rfl

/-- Claim C5: every string that `int` parses to a non-negative value is
classified as an ASN by `_resource`: it returns the integer value and sets
the class attribute to `"asn"`. -/
theorem C5_nonnegative_integer_is_asn (s : String) (n : Int)
    (h1 : pyParseInt s = some n) (h2 : 0 ≤ n) :
    RoutingStatus._resource s = Except.ok (.asn n, "asn") := by
  have ha : Validators.validate_asn s = true := by
    unfold Validators.validate_asn
    rw [h1]
    exact decide_eq_true h2
  unfold RoutingStatus._resource
  rw [ha]
  simp [h1]

/-- Concrete instantiation of C5 at the test suite's resource `"196"`. -/
theorem C5_nonnegative_integer_is_asn_witness :
    RoutingStatus._resource "196" = Except.ok (.asn 196, "asn") :=
  C5_nonnegative_integer_is_asn "196" 196 (by decide) (by decide)

/-- Claim C6: every string the IP-network parser accepts and the ASN
validator rejects is classified as a prefix by `_resource`: it returns the
parsed network and sets the class attribute to `"prefix"`; and when the
string is a bare address (no slash), the parsed network carries the full
prefix length, /32 for IPv4 and /128 for IPv6. -/
theorem C6_ip_network_is_prefix (s : String) (net : IPNetwork)
    (h1 : Validators.validate_asn s = false)
    (h2 : parseIpNetwork s = some net) :
    RoutingStatus._resource s = Except.ok (.net net, "prefix")
    ∧ ((splitOnChar '/' s.toList).length = 1 →
        (net.v6 = false → net.plen = 32) ∧ (net.v6 = true → net.plen = 128)) := by
  constructor
  · unfold RoutingStatus._resource
    rw [h1]
    simp [Validators.validate_ip_network, h2]
  · intro hone
    unfold parseIpNetwork parseIpNetworkCore at h2
    cases hsp : splitOnChar '/' s.toList with
    | nil => rw [hsp] at hone; simp at hone
    | cons a t =>
      cases t with
      | nil =>
        rw [hsp] at h2
        cases h4 : parseIPv4Addr a with
        | some m =>
          simp only [h4] at h2
          injection h2 with h7
          subst h7
          simp
        | none =>
          cases h6 : parseIPv6Addr a with
          | some m =>
            simp only [h4, h6, Option.map] at h2
            injection h2 with h7
            subst h7
            simp
          | none =>
            simp only [h4, h6, Option.map] at h2
            exact Option.noConfusion h2
      | cons b t2 =>
        rw [hsp] at hone
        cases t2 with
        | nil =>
          simp at hone
        | cons c t3 =>
          simp at hone

/-- Concrete instantiation of C6 at the bare IPv4 address `"193.0.0.1"`,
normalized to a /32 network. -/
theorem C6_ip_network_is_prefix_witness :
    RoutingStatus._resource "193.0.0.1" =
      Except.ok (.net ⟨false, 3238002689, 32⟩, "prefix")
    ∧ ((splitOnChar '/' "193.0.0.1".toList).length = 1 →
        ((⟨false, 3238002689, 32⟩ : IPNetwork).v6 = false →
          (⟨false, 3238002689, 32⟩ : IPNetwork).plen = 32)
        ∧ ((⟨false, 3238002689, 32⟩ : IPNetwork).v6 = true →
          (⟨false, 3238002689, 32⟩ : IPNetwork).plen = 128)) :=
  C6_ip_network_is_prefix "193.0.0.1" ⟨false, 3238002689, 32⟩
    (by decide) (by decide)

/-- Claim C7: for every resource that `_resource` accepts, construction makes
exactly one collaborator call, to the fixed path `"/routing-status"`, with
query parameters `preferred_version = "3.0"` and `resource` equal to the
string form of the normalized resource value. -/
theorem C7_get_call_contract (st : String) (g : RoutingStatus.Getter)
    (s : String) (v : RoutingStatus.ResourceVal) (rt : String)
    (h : RoutingStatus._resource s = Except.ok (v, rt)) :
    (RoutingStatus.init st g s).calls =
      [("/routing-status",
        [("preferred_version", "3.0"),
          ("resource", RoutingStatus.resourceStr v)])] := by
  unfold RoutingStatus.init
  rw [h]
  rfl

/-- Concrete instantiation of C7 at the ASN resource `"196"`. -/
theorem C7_get_call_contract_witness :
    (RoutingStatus.init "" cannedGetter "196").calls =
      [("/routing-status",
        [("preferred_version", "3.0"), ("resource", "196")])] :=
  C7_get_call_contract "" cannedGetter "196" (.asn 196) "asn" rfl

/-- Claim C8: under a prefix-type detection, `less_specifics` ignores the
payload's contents: once `data["less_specifics"]` exists and is a list, the
accessor returns the literal string `"return"` whatever the items are. -/
theorem C8_less_specifics_literal (self : RoutingStatusInst) (xs : List Json)
    (h : self.api.data.getItem "less_specifics" = Except.ok (Json.arr xs)) :
    RoutingStatus.less_specifics "prefix" self = Except.ok (some "return") := by
  unfold RoutingStatus.less_specifics
  rw [if_pos rfl, h, ok_bind]
  rfl

/-- Concrete instantiation of C8 on a payload with a nonempty
`less_specifics` list. -/
theorem C8_less_specifics_literal_witness :
    RoutingStatus.less_specifics "prefix"
      ⟨⟨Json.obj [("less_specifics",
        Json.arr [Json.obj [("prefix", Json.str "130.38.0.0/16"),
          ("origin", Json.num 196)]])]⟩⟩ = Except.ok (some "return") :=
  C8_less_specifics_literal
    ⟨⟨Json.obj [("less_specifics",
      Json.arr [Json.obj [("prefix", Json.str "130.38.0.0/16"),
        ("origin", Json.num 196)]])]⟩⟩
    [Json.obj [("prefix", Json.str "130.38.0.0/16"), ("origin", Json.num 196)]]
    rfl

/-- Claim C9: when the detected resource type is anything other than
`"prefix"`, `more_specifics` does not return a value: its `return` lies
outside the type guard and names a local bound only inside the guard, so the
access raises `UnboundLocalError`. -/
theorem C9_more_specifics_unbound_local (rt : String)
    (self : RoutingStatusInst) (h : rt ≠ "prefix") :
    RoutingStatus.more_specifics rt self =
      Except.error (PyError.unboundLocalError "more_specifics") := by
  unfold RoutingStatus.more_specifics
  rw [if_neg h]

/-- Concrete instantiation of C9 under the `"asn"` resource type, on the
canned payload. -/
theorem C9_more_specifics_unbound_local_witness :
    RoutingStatus.more_specifics "asn" cannedInst =
      Except.error (PyError.unboundLocalError "more_specifics") :=
  C9_more_specifics_unbound_local "asn" cannedInst (by decide)

/-- Claim C10: the accessors whose body sits wholly inside the type guard
fall through to `None` on a mismatch instead of raising: `announced_space`
yields `None` whenever the detected type is not `"asn"`, and
`less_specifics` yields `None` whenever it is not `"prefix"`, for any
payload whatsoever. -/
theorem C10_guard_fallthrough_none (rt1 rt2 : String)
    (s1 s2 : RoutingStatusInst) (h1 : rt1 ≠ "asn") (h2 : rt2 ≠ "prefix") :
    RoutingStatus.announced_space rt1 s1 = Except.ok none
    ∧ RoutingStatus.less_specifics rt2 s2 = Except.ok none := by
  constructor
  · unfold RoutingStatus.announced_space
    rw [if_neg h1]
  · unfold RoutingStatus.less_specifics
    rw [if_neg h2]

/-- Concrete instantiation of C10 on the canned payload: `announced_space`
under `"prefix"` and `less_specifics` under `"asn"` both yield `None`. -/
theorem C10_guard_fallthrough_none_witness :
    RoutingStatus.announced_space "prefix" cannedInst = Except.ok none
    ∧ RoutingStatus.less_specifics "asn" cannedInst = Except.ok none :=
  C10_guard_fallthrough_none "prefix" "asn" cannedInst cannedInst
    (by decide) (by decide)
